import Mathlib

/-!
# Shallow embedding of `src/broker/grinbox.rs` (wallet713 grinbox broker)

This file models the connection/authentication/transport layer of the
grinbox broker: the protocol client (`GrinboxClient`), the publisher flow
(`GrinboxBroker::post_slate`), the subscriber worker
(`GrinboxBroker::subscribe`), and the connection-handle registry
(`GrinboxBroker::stop` / `is_running`).

External crypto and serialization primitives (`sign_challenge`,
`verify_signature`, `EncryptedMessage`, `serde_json`, address parsing) are
consumed through a record of abstract functions (`Prims`); the transport
environment (whether `sender.send` / `ping` / `timeout` succeed) is a record
of booleans (`Env`).  Panics (`expect` / `unwrap`) are explicit outcomes.
-/

namespace Grinbox

/-- `GrinboxAddress` from the `contacts` module: domain, optional port,
public-key string. -/
structure GrinboxAddress where
  domain : String
  port : Option Nat
  public_key : String
  deriving DecidableEq, Repr

/-- Modelled from the spec: the constant `DEFAULT_GRINBOX_PORT` is declared in
the `contacts` module, which is absent from the sources; the spec fixes the
default port at 13420. -/
def DEFAULT_GRINBOX_PORT : Nat := 13420

/-- `const KEEPALIVE_TOKEN: Token = Token(1)`. -/
def KEEPALIVE_TOKEN : Nat := 1

/-- `const KEEPALIVE_INTERVAL_MS: u64 = 30_000`. -/
def KEEPALIVE_INTERVAL_MS : Nat := 30000

/-- The closed set of server→client responses (`ProtocolResponse` in the
`protocol` module).  The spec's table lists `Challenge`, `Slate` and `Error`;
the `other` constructor stands for the further variants matched by the
wildcard arm `_ => {}` in both message handlers. -/
inductive ProtocolResponse where
  | challenge (str : String)
  | slate (from_ : String) (str : String) (challenge : String) (signature : String)
  | error (kind : String) (description : String)
  | other
  deriving DecidableEq, Repr

/-- The closed set of client→server requests (`ProtocolRequest`). -/
inductive ProtocolRequest where
  | subscribe (address : String) (signature : String)
  | postSlate (from_ : String) (to_ : String) (str : String) (signature : String)
  deriving DecidableEq, Repr

/-- `ws::CloseCode`, as used by this file. -/
inductive CloseCode where
  | normal
  deriving DecidableEq, Repr

/-- `CloseReason` from `broker::types`: the code always constructs
`Abnormal(GrinboxWebsocketAbnormalTermination)`, so the cause needs no
parameter. -/
inductive CloseReason where
  | normal
  | abnormal
  deriving DecidableEq, Repr

/-- Observable actions of one connection: frames pushed through the
`ws::Sender` (`send`, `close`, `ping`, `timeout`), handler callbacks
(`onOpen`, `onSlate`), and `cli_message!` log lines. -/
inductive Event where
  | send (frame : String)
  | close (code : CloseCode)
  | ping
  | timeout (ms : Nat) (token : Nat)
  | onOpen
  | onSlate (from_ : GrinboxAddress) (slate : String)
  | onClose (reason : CloseReason)
  | log (msg : String)
  deriving DecidableEq, Repr

/-- Is this event an `on_close` handler callback? -/
def Event.isOnClose : Event → Bool
  | .onClose _ => true
  | _ => false

/-- Is this event a handler callback (`on_open`, `on_slate`, `on_close`)? -/
def Event.isCallback : Event → Bool
  | .onOpen => true
  | .onSlate _ _ => true
  | .onClose _ => true
  | _ => false

/-- `ws::Error`: the two kinds this file constructs, plus an abstract
environment error for failures of `sender.send` / `ping` / `timeout`
themselves. -/
inductive WsError where
  | protocol (msg : String)
  | internal (msg : String)
  | env
  deriving DecidableEq, Repr

/-- `ws::Result<()>`: `Ok(())` or a `ws::Error`. -/
inductive WsResult where
  | ok
  | err (e : WsError)
  deriving DecidableEq, Repr

/-- Result of one `ws::Handler` callback: either the thread panics (an
`expect`/`unwrap` fired), or the callback returns, with the events emitted up
to that point and the `WsResult` value. -/
inductive HRes where
  | panic (msg : String) (events : List Event)
  | done (events : List Event) (res : WsResult)
  deriving DecidableEq, Repr

/-- Events emitted by a callback, whether it returned or panicked. -/
def HRes.events : HRes → List Event
  | .panic _ es => es
  | .done es _ => es

/-- The callback returned `Ok(())`. -/
def HRes.isOk : HRes → Bool
  | .done _ .ok => true
  | _ => false

/-- The callback panicked. -/
def HRes.isPanic : HRes → Bool
  | .panic _ _ => true
  | _ => false

/-- Abstract external primitives: crypto (`common::crypto`), address parsing
(`contacts`) and serde serialization, consumed as capabilities.  Keys,
signatures, slates and encrypted messages are all carried as strings. -/
structure Prims where
  /-- `serde_json::from_str::<ProtocolResponse>`. -/
  parseResponse : String → Option ProtocolResponse
  /-- `GrinboxAddress::from_str`. -/
  parseAddress : String → Option GrinboxAddress
  /-- `GrinboxAddress::public_key()`. -/
  addrPublicKey : GrinboxAddress → Option String
  /-- `Signature::from_hex`. -/
  sigFromHex : String → Option String
  /-- `verify_signature(challenge, signature, public_key)`. -/
  verify : String → String → String → Bool
  /-- `sign_challenge(challenge, secret_key)`, fallible. -/
  sign : String → String → Option String
  /-- `Signature::to_hex`. -/
  sigToHex : String → String
  /-- `EncryptedMessage::new(plaintext, receiver_pk, sender_sk)`, fallible. -/
  encrypt : String → String → String → Option String
  /-- `serde_json::to_string` of an `EncryptedMessage`. -/
  serEnc : String → String
  /-- `serde_json::from_str::<EncryptedMessage>`. -/
  parseEnc : String → Option String
  /-- `EncryptedMessage::decrypt(sender_pk, receiver_sk)`, fallible. -/
  decrypt : String → String → String → Option String
  /-- `serde_json::from_str::<Slate>`. -/
  parseSlate : String → Option String
  /-- `serde_json::to_string` of a `Slate`. -/
  serSlate : String → String
  /-- `serde_json::to_string` of a `ProtocolRequest`. -/
  serRequest : ProtocolRequest → String
  /-- Modelled from the spec: `GrinboxAddress::stripped()` lives in the
  `contacts` module, absent from the sources; per the spec it renders the
  sender address stripped of any secret material. -/
  stripped : GrinboxAddress → String

/-- Transport environment for one callback: whether `sender.send`,
`sender.ping` and `sender.timeout` succeed. -/
structure Env where
  sendOk : Bool
  pingOk : Bool
  timeoutOk : Bool
  deriving DecidableEq, Repr

/-- The mutable fields of `GrinboxClient` apart from the sender/handler
capabilities (which are modelled by events). -/
structure ClientState where
  address : GrinboxAddress
  secret_key : String
  use_encryption : Bool
  challenge : Option String
  deriving DecidableEq, Repr

/-- `GrinboxClient::generate_signature`: sign the given string, panicking
with `could not sign challenge!` when the primitive fails, else render the
signature as hex. -/
def generate_signature (p : Prims) (challenge : String) (secret_key : String) :
    Option String :=
  (p.sign challenge secret_key).map p.sigToHex

/-- `Result<(), common::Error>`, errors carried as strings. -/
inductive RustResult where
  | ok
  | err (e : String)
  deriving DecidableEq, Repr

/-- Result of `GrinboxClient::subscribe`: panic, or return with the emitted
events and the `Result<(), Error>` value. -/
inductive SubRes where
  | panic (msg : String) (events : List Event)
  | ret (events : List Event) (res : RustResult)
  deriving DecidableEq, Repr

/-- `GrinboxClient::subscribe(challenge)`: build the signature over exactly
the `challenge` argument (the server nonce), panicking when signing fails;
send `Subscribe { address: self.address.public_key, signature }`, panicking
with `could not send subscribe request!` when the send fails; otherwise
return `Ok(())`. -/
def client_subscribe (p : Prims) (env : Env) (c : ClientState)
    (challenge : String) : SubRes :=
  match generate_signature p challenge c.secret_key with
  | none => .panic "could not sign challenge!" []
  | some signature =>
    let request := ProtocolRequest.subscribe c.address.public_key signature
    if env.sendOk then .ret [.send (p.serRequest request)] .ok
    else .panic "could not send subscribe request!" []

/-- `GrinboxClient::verify_slate_signature(from, str, challenge, signature)`:
parse `from` as an address, extract its public key, parse the hex signature,
and verify it over the concatenation `str ++ challenge`.  Any failure makes
the whole check fail. -/
def verify_slate_signature (p : Prims) (from_ str challenge signature : String) :
    Bool :=
  match p.parseAddress from_ with
  | none => false
  | some a =>
    match p.addrPublicKey a with
    | none => false
    | some public_key =>
      match p.sigFromHex signature with
      | none => false
      | some sig => p.verify (str ++ challenge) sig public_key

/-- The `ProtocolResponse::Slate` arm of `GrinboxClient::on_message`: verify
the signature; on failure log and stay `Ok`.  On success re-parse the sender
address, then decode the payload — through the encrypted envelope
(parse, public key, decrypt, parse slate) when `use_encryption`, directly
otherwise — logging and dropping on any failure, and finally deliver
`handler.on_slate`. -/
def handle_slate (p : Prims) (c : ClientState)
    (from_ str challenge signature : String) : HRes :=
  if verify_slate_signature p from_ str challenge signature then
    match p.parseAddress from_ with
    | none => .done [.log "could not parse address!"] .ok
    | some fromAddr =>
      if c.use_encryption then
        match p.parseEnc str with
        | none => .done [.log "could not parse encrypted message!"] .ok
        | some encrypted_message =>
          match p.addrPublicKey fromAddr with
          | none => .done [.log "could not parse public key!"] .ok
          | some pkey =>
            match p.decrypt encrypted_message pkey c.secret_key with
            | none => .done [.log "could not decrypt message!"] .ok
            | some decrypted_message =>
              match p.parseSlate decrypted_message with
              | none => .done [.log "could not parse slate!"] .ok
              | some slate => .done [.onSlate fromAddr slate] .ok
      else
        match p.parseSlate str with
        | none => .done [.log "could not parse slate!"] .ok
        | some slate => .done [.onSlate fromAddr slate] .ok
  else
    .done [.log "received slate with invalid signature!"] .ok

/-- `<GrinboxClient as Handler>::on_message`: parse the raw text as a
`ProtocolResponse`, failing with a `Protocol` ws error when the parse fails;
dispatch on the response.  `Challenge` stores the nonce and runs
`subscribe`; `Slate` runs `handle_slate`; `Error` logs; anything else is
ignored.  Returns the updated client state and the callback result. -/
def subscriber_on_message (p : Prims) (env : Env) (c : ClientState)
    (raw : String) : ClientState × HRes :=
  match p.parseResponse raw with
  | none => (c, .done [] (.err (.protocol "could not parse response!")))
  | some response =>
    match response with
    | .challenge str =>
      let c' := { c with challenge := some str }
      match client_subscribe p env c' str with
      | .panic msg es => (c', .panic msg es)
      | .ret es .ok => (c', .done es .ok)
      | .ret es (.err _) =>
        (c', .done es (.err (.protocol "error attempting to subscribe!")))
    | .slate from_ str challenge signature =>
      (c, handle_slate p c from_ str challenge signature)
    | .error _ _ => (c, .done [.log "error response"] .ok)
    | .other => (c, .done [] .ok)

/-- `<GrinboxClient as Handler>::on_open`: notify `handler.on_open()`, then
arm the keepalive timer; a failing `timeout` registration propagates through
`try!`. -/
def client_on_open (env : Env) : HRes :=
  if env.timeoutOk then
    .done [.onOpen, .timeout KEEPALIVE_INTERVAL_MS KEEPALIVE_TOKEN] .ok
  else
    .done [.onOpen] (.err .env)

/-- `<GrinboxClient as Handler>::on_timeout`: on the keepalive token, ping
and re-arm the same timer; any other token is an `Internal` ws error. -/
def client_on_timeout (env : Env) (event : Nat) : HRes :=
  if event = KEEPALIVE_TOKEN then
    if env.pingOk then
      if env.timeoutOk then
        .done [.ping, .timeout KEEPALIVE_INTERVAL_MS KEEPALIVE_TOKEN] .ok
      else .done [.ping] (.err .env)
    else .done [] (.err .env)
  else .done [] (.err (.internal "Invalid timeout token encountered!"))

/-- The URL built by both `post_slate` and `subscribe`:
`format!("wss:\x7b\x7d:\x7b\x7d", domain, port.unwrap_or(DEFAULT_GRINBOX_PORT))`
(with the scheme prefix). -/
def grinbox_url (addr : GrinboxAddress) : String :=
  "wss://" ++ addr.domain ++ ":" ++ toString (addr.port.getD DEFAULT_GRINBOX_PORT)

/-- The tail of the publisher's `Challenge` arm: sign
`slate_str ++ nonce` (panicking via `expect` when `sign_challenge` fails),
send `PostSlate { from: from.stripped(), to: to.public_key, str: slate_str,
signature }` (the `.unwrap()` on the send panics on failure), then request a
normal close, whose own result is discarded. -/
def publisher_send (p : Prims) (env : Env) (slate_str nonce : String)
    (to_ from_ : GrinboxAddress) (secret_key : String) : HRes :=
  match generate_signature p (slate_str ++ nonce) secret_key with
  | none => .panic "could not sign challenge!" []
  | some signature =>
    let request :=
      ProtocolRequest.postSlate (p.stripped from_) to_.public_key slate_str signature
    if env.sendOk then
      .done [.send (p.serRequest request), .close .normal] .ok
    else .panic "called Result::unwrap on an Err value" []

/-- The message closure of `GrinboxBroker::post_slate`: parse the raw text
(`.expect("could not parse response!")` panics on failure); on `Challenge`,
build the payload string — the serialized encrypted envelope when
`use_encryption` (an encryption failure becomes a `Protocol` ws error via
`map_err` and `?`), the serialized slate otherwise — and run the send/close
tail; every other response falls to the wildcard arm and is ignored.
`pkey` is `to.public_key()?`, resolved before the connection is opened. -/
def publisher_on_message (p : Prims) (env : Env) (slate : String)
    (to_ from_ : GrinboxAddress) (pkey secret_key : String)
    (use_encryption : Bool) (raw : String) : HRes :=
  match p.parseResponse raw with
  | none => .panic "could not parse response!" []
  | some (.challenge str) =>
    if use_encryption then
      match p.encrypt (p.serSlate slate) pkey secret_key with
      | none => .done [] (.err (.protocol "could not encrypt slate!"))
      | some message =>
        publisher_send p env (p.serEnc message) str to_ from_ secret_key
    else
      publisher_send p env (p.serSlate slate) str to_ from_ secret_key
  | some _ => .done [] .ok

/-- `GrinboxBroker::new`: the registry slot starts empty
(`Mutex::new(None)`).  Connection handles (`ws::Sender`) are abstracted as
naturals. -/
def broker_new_registry : Option Nat := none

/-- `GrinboxBroker::stop`: under the lock, request a normal close of the
registered handle when one is present (its result is discarded), then clear
the slot. -/
def broker_stop (registry : Option Nat) : Option Nat × List Event :=
  match registry with
  | some _ => (none, [.close .normal])
  | none => (none, [])

/-- `GrinboxBroker::is_running`: whether a handle is currently registered. -/
def broker_is_running (registry : Option Nat) : Bool :=
  registry.isSome

/-- Actions of the subscriber worker thread, in program order: registry
writes and connection events (sender effects, handler callbacks, logs). -/
inductive WAct where
  | install (h : Nat)
  | clear
  | act (e : Event)
  deriving DecidableEq, Repr

/-- Is this worker action an `on_close` callback? -/
def WAct.isOnCloseCb : WAct → Bool
  | .act e => e.isOnClose
  | _ => false

/-- How one connection run of the subscriber worker ends: either `connect`
returns (`Ok` or `Err`), or a handler callback panicked — the panic unwinds
through `connect` and kills the spawned thread. -/
inductive ConnectOutcome where
  | returned (ok : Bool)
  | panicked (msg : String)
  deriving DecidableEq, Repr

/-- The worker spawned by `GrinboxBroker::subscribe`: install the sender
into the registry inside the connection factory, run the connection (whose
events are `clientEvents`).  Only when `connect` returns does the worker
clear the registry and then invoke `handler.on_close` — `Normal` when
`connect` returned `Ok`, `Abnormal(GrinboxWebsocketAbnormalTermination)`
when it returned `Err`.  When a handler callback panics, the thread dies
before that epilogue: the registry keeps the dead sender and no `on_close`
is delivered. -/
def worker_run (h : Nat) (clientEvents : List Event) (out : ConnectOutcome) :
    List WAct :=
  WAct.install h :: clientEvents.map WAct.act ++
    (match out with
     | .returned ok =>
       [.clear, .act (.onClose (if ok then .normal else .abnormal))]
     | .panicked _ => [])

/-- One returning (non-panicking) `ws::Handler` callback of the
subscriber's `GrinboxClient`, relating client states and the emitted
events; a panicking callback is not a step, it ends the event loop. -/
inductive ClientStep (p : Prims) (env : Env) :
    ClientState → ClientState → List Event → Prop where
  | opened (c : ClientState) :
      ClientStep p env c c (client_on_open env).events
  | timedOut (c : ClientState) (tok : Nat) :
      ClientStep p env c c (client_on_timeout env tok).events
  | message (c : ClientState) (raw : String) (c₁ : ClientState)
      (es : List Event) (res : WsResult) :
      subscriber_on_message p env c raw = (c₁, .done es res) →
      ClientStep p env c c₁ es

/-- A run of the subscriber's event loop: a sequence of returning handler
callbacks, with the concatenation of their events. -/
inductive ClientTrace (p : Prims) (env : Env) :
    ClientState → ClientState → List Event → Prop where
  | nil (c : ClientState) : ClientTrace p env c c []
  | cons {c c₁ c₂ : ClientState} {es es₁ : List Event} :
      ClientStep p env c c₁ es → ClientTrace p env c₁ c₂ es₁ →
      ClientTrace p env c c₂ (es ++ es₁)

/-- One whole connection lifetime of the subscriber worker, as the list of
worker actions it performs: either the event loop runs to `connect`
returning (`completed`), or it runs until a message callback panics
(`panicked`), in which case the thread dies right after the events the
panicking callback had already emitted. -/
inductive WorkerLifetime (p : Prims) (env : Env) (c : ClientState)
    (h : Nat) : ConnectOutcome → List WAct → Prop where
  | completed (c₁ : ClientState) (evs : List Event) (ok : Bool) :
      ClientTrace p env c c₁ evs →
      WorkerLifetime p env c h (.returned ok)
        (worker_run h evs (.returned ok))
  | panicked (c₁ c₂ : ClientState) (evs es : List Event)
      (msg raw : String) :
      ClientTrace p env c c₁ evs →
      subscriber_on_message p env c₁ raw = (c₂, .panic msg es) →
      WorkerLifetime p env c h (.panicked msg)
        (worker_run h (evs ++ es) (.panicked msg))

/-- A concrete local address for evaluating the model. -/
def testAddress : GrinboxAddress :=
  { domain := "example.com", port := none, public_key := "PK" }

/-- A concrete sender address for evaluating the model. -/
def testSender : GrinboxAddress :=
  { domain := "relay", port := some 1, public_key := "BPK" }

/-- A concrete instantiation of the external primitives, for evaluating the
model on closed inputs: signing is the identity on the message, hex
rendering is the identity, verification accepts exactly the signature equal
to message ++ key, and serializers tag their fields. -/
def testPrims : Prims where
  parseResponse raw :=
    if raw = "C" then some (.challenge "N")
    else if raw = "S" then some (.slate "bob" "payload" "xyz" "deadbeef")
    else if raw = "G" then some (.slate "bob" "payload" "xyz" "payloadxyzBPK")
    else if raw = "E" then some (.error "k" "d")
    else none
  parseAddress s := if s = "bob" then some testSender else none
  addrPublicKey a := some a.public_key
  sigFromHex s := some s
  verify m sig pk := sig == m ++ pk
  sign m _ := some m
  sigToHex s := s
  encrypt m pk sk := some ("enc(" ++ m ++ "," ++ pk ++ "," ++ sk ++ ")")
  serEnc s := s
  parseEnc s := some s
  decrypt m _ _ := some m
  parseSlate s := some s
  serSlate s := s
  serRequest r :=
    match r with
    | .subscribe a s => "SUB:" ++ a ++ ":" ++ s
    | .postSlate f t s sg => "POST:" ++ f ++ ":" ++ t ++ ":" ++ s ++ ":" ++ sg
  stripped a := a.domain

/-- A transport environment in which every sender operation succeeds. -/
def testEnv : Env := { sendOk := true, pingOk := true, timeoutOk := true }

/-- A transport environment in which `sender.send` fails, firing the
`expect` in `GrinboxClient::subscribe`. -/
def failSendEnv : Env := { sendOk := false, pingOk := true, timeoutOk := true }

/-- A concrete subscriber client state (encryption disabled). -/
def testClient : ClientState :=
  { address := testAddress, secret_key := "SK", use_encryption := false,
    challenge := none }

/-- The `Slate` arm returns `Ok(())` on every exit, emitting either a single
log line or a single `on_slate` callback: message-level failures log and
drop, they never produce an error result or a panic. -/
theorem handle_slate_shape (p : Prims) (c : ClientState)
    (f s ch sg : String) :
    (∃ m, handle_slate p c f s ch sg = .done [.log m] .ok) ∨
    (∃ a sl, handle_slate p c f s ch sg = .done [.onSlate a sl] .ok) := by
  unfold handle_slate
  repeat' split
  all_goals simp

/-- Every exit of the `Slate` arm returns `Ok(())`. -/
theorem handle_slate_returns_ok (p : Prims) (c : ClientState)
    (f s ch sg : String) :
    ∃ es, handle_slate p c f s ch sg = .done es .ok := by
  rcases handle_slate_shape p c f s ch sg with ⟨m, hm⟩ | ⟨a, sl, hm⟩ <;>
    exact ⟨_, hm⟩

/-- The `Slate` arm never emits `on_close`. -/
theorem handle_slate_no_onClose (p : Prims) (c : ClientState)
    (f s ch sg : String) :
    ∀ e ∈ (handle_slate p c f s ch sg).events, e.isOnClose = false := by
  rcases handle_slate_shape p c f s ch sg with ⟨m, hm⟩ | ⟨a, sl, hm⟩ <;>
    simp [hm, HRes.events, Event.isOnClose]

/-- When the signature does not verify, the `Slate` arm only logs the
invalid-signature warning, keeps the state, and returns `Ok(())`. -/
theorem handle_slate_invalid_signature (p : Prims) (c : ClientState)
    (f s ch sg : String)
    (hv : verify_slate_signature p f s ch sg = false) :
    handle_slate p c f s ch sg =
      .done [.log "received slate with invalid signature!"] .ok := by
  simp [handle_slate, hv]

/-- An `on_slate` delivery from the `Slate` arm pins down the whole decode
chain: the signature verified, the sender address parsed to the delivered
address, and the slate came through the encrypted envelope when encryption
is enabled, or from the payload string directly when it is disabled. -/
theorem handle_slate_onSlate_spec (p : Prims) (c : ClientState)
    (f s ch sg : String) (a : GrinboxAddress) (sl : String)
    (hmem : Event.onSlate a sl ∈ (handle_slate p c f s ch sg).events) :
    verify_slate_signature p f s ch sg = true ∧
    p.parseAddress f = some a ∧
    ((c.use_encryption = true ∧ ∃ em pk d, p.parseEnc s = some em ∧
        p.addrPublicKey a = some pk ∧ p.decrypt em pk c.secret_key = some d ∧
        p.parseSlate d = some sl) ∨
     (c.use_encryption = false ∧ p.parseSlate s = some sl)) := by
  cases hv : verify_slate_signature p f s ch sg with
  | false => simp [handle_slate, hv, HRes.events] at hmem
  | true =>
    cases hpa : p.parseAddress f with
    | none => simp [handle_slate, hv, hpa, HRes.events] at hmem
    | some fromAddr =>
      cases henc : c.use_encryption with
      | true =>
        cases hpe : p.parseEnc s with
        | none => simp [handle_slate, hv, hpa, henc, hpe, HRes.events] at hmem
        | some em =>
          cases hpk : p.addrPublicKey fromAddr with
          | none =>
            simp [handle_slate, hv, hpa, henc, hpe, hpk, HRes.events] at hmem
          | some pk =>
            cases hde : p.decrypt em pk c.secret_key with
            | none =>
              simp [handle_slate, hv, hpa, henc, hpe, hpk, hde,
                HRes.events] at hmem
            | some d =>
              cases hps : p.parseSlate d with
              | none =>
                simp [handle_slate, hv, hpa, henc, hpe, hpk, hde, hps,
                  HRes.events] at hmem
              | some sl2 =>
                simp [handle_slate, hv, hpa, henc, hpe, hpk, hde, hps,
                  HRes.events] at hmem
                obtain ⟨ha, hsl⟩ := hmem
                subst ha
                subst hsl
                refine ⟨?_, ?_, .inl ⟨?_, em, pk, d, ?_, ?_, ?_, ?_⟩⟩ <;>
                  first | rfl | assumption
      | false =>
        cases hps : p.parseSlate s with
        | none => simp [handle_slate, hv, hpa, henc, hps, HRes.events] at hmem
        | some sl2 =>
          simp [handle_slate, hv, hpa, henc, hps, HRes.events] at hmem
          obtain ⟨ha, hsl⟩ := hmem
          subst ha
          subst hsl
          refine ⟨?_, ?_, .inr ⟨?_, ?_⟩⟩ <;> first | rfl | assumption

/-- `GrinboxClient::subscribe` either panics (failed signing or failed
send, with no frame emitted) or returns `Ok(())` having sent exactly one
frame. -/
theorem client_subscribe_shape (p : Prims) (env : Env) (c : ClientState)
    (challenge : String) :
    client_subscribe p env c challenge = .panic "could not sign challenge!" [] ∨
    client_subscribe p env c challenge =
      .panic "could not send subscribe request!" [] ∨
    (∃ fr, client_subscribe p env c challenge = .ret [.send fr] .ok) := by
  unfold client_subscribe
  repeat' split
  all_goals simp_all

/-- `on_open` never emits `on_close`. -/
theorem client_on_open_no_onClose (env : Env) :
    ∀ e ∈ (client_on_open env).events, e.isOnClose = false := by
  unfold client_on_open
  by_cases h : env.timeoutOk = true <;> simp [h, HRes.events, Event.isOnClose]

/-- `on_timeout` emits at most a ping and a timer re-arm, never a handler
callback. -/
theorem client_on_timeout_no_onClose (env : Env) (tok : Nat) :
    ∀ e ∈ (client_on_timeout env tok).events, e.isOnClose = false := by
  unfold client_on_timeout
  by_cases h1 : tok = KEEPALIVE_TOKEN <;>
    by_cases h2 : env.pingOk = true <;>
    by_cases h3 : env.timeoutOk = true <;>
    simp [h1, h2, h3, HRes.events, Event.isOnClose]

/-- `on_message` never emits `on_close`: the worker epilogue is the only
source of that callback. -/
theorem subscriber_on_message_no_onClose (p : Prims) (env : Env)
    (c : ClientState) (raw : String) :
    ∀ e ∈ (subscriber_on_message p env c raw).2.events, e.isOnClose = false := by
  cases hpr : p.parseResponse raw with
  | none => simp [subscriber_on_message, hpr, HRes.events]
  | some r =>
    cases r with
    | challenge str =>
      rcases client_subscribe_shape p env { c with challenge := some str } str
        with h | h | ⟨fr, h⟩ <;>
        simp [subscriber_on_message, hpr, h, HRes.events, Event.isOnClose]
    | slate f s ch sg =>
      intro e he
      simp only [subscriber_on_message, hpr] at he
      exact handle_slate_no_onClose p c f s ch sg e he
    | error k d =>
      simp [subscriber_on_message, hpr, HRes.events, Event.isOnClose]
    | other => simp [subscriber_on_message, hpr, HRes.events]

/-- No single client callback emits `on_close`. -/
theorem clientStep_no_onClose {p : Prims} {env : Env}
    {c c₁ : ClientState} {es : List Event}
    (hstep : ClientStep p env c c₁ es) :
    ∀ e ∈ es, e.isOnClose = false := by
  cases hstep with
  | opened => exact client_on_open_no_onClose env
  | timedOut tok => exact client_on_timeout_no_onClose env tok
  | message raw c₁ es res heq =>
    have hh := subscriber_on_message_no_onClose p env c raw
    rw [heq] at hh
    exact hh

/-- No run of the client's event loop emits `on_close`. -/
theorem clientTrace_no_onClose {p : Prims} {env : Env}
    {c c₁ : ClientState} {es : List Event}
    (ht : ClientTrace p env c c₁ es) :
    ∀ e ∈ es, e.isOnClose = false := by
  induction ht with
  | nil c => simp
  | cons hstep _ ih =>
    intro e he
    rcases List.mem_append.mp he with h | h
    · exact clientStep_no_onClose hstep e h
    · exact ih e h

/-- C6: the connection-handle registry holds zero or one handle (it is an
`Option`); it starts empty, `stop()` requests a normal close exactly when a
handle is registered and always leaves the registry empty, a second `stop()`
is a no-op, and `is_running()` is true exactly when a handle is registered —
hence false before start and false after stop. -/
theorem registry_stop_idempotent_is_running (r : Option Nat) :
    broker_is_running broker_new_registry = false ∧
    broker_is_running r = r.isSome ∧
    (broker_stop r).1 = none ∧
    (broker_stop r).2 =
      (match r with
       | some _ => [Event.close .normal]
       | none => []) ∧
    broker_stop (broker_stop r).1 = (none, []) ∧
    broker_is_running (broker_stop r).1 = false := by
  cases r <;> simp [broker_is_running, broker_stop, broker_new_registry]

/-- C10: in the subscriber's challenge-response path, `subscribe` returns
the sent frame and `Ok(())` when signing and sending succeed; a signing
failure panics via `expect("could not sign challenge!")`, a sending failure
panics via `expect("could not send subscribe request!")`, and no input
produces an error result. -/
theorem subscribe_panics_never_errors (p : Prims) (env : Env)
    (c : ClientState) (challenge : String) :
    (∀ sig, p.sign challenge c.secret_key = some sig → env.sendOk = true →
      client_subscribe p env c challenge =
        .ret [.send (p.serRequest
          (.subscribe c.address.public_key (p.sigToHex sig)))] .ok) ∧
    (p.sign challenge c.secret_key = none →
      client_subscribe p env c challenge =
        .panic "could not sign challenge!" []) ∧
    (∀ sig, p.sign challenge c.secret_key = some sig → env.sendOk = false →
      client_subscribe p env c challenge =
        .panic "could not send subscribe request!" []) ∧
    (∀ es e, client_subscribe p env c challenge ≠ .ret es (.err e)) := by
  refine ⟨?_, ?_, ?_, ?_⟩
  · intro sig hs hsend
    simp [client_subscribe, generate_signature, hs, hsend]
  · intro hs
    simp [client_subscribe, generate_signature, hs]
  · intro sig hs hsend
    simp [client_subscribe, generate_signature, hs, hsend]
  · intro es e
    rcases client_subscribe_shape p env c challenge with h | h | ⟨fr, h⟩ <;>
      simp [h]

/-- C10 witness: with concrete primitives where signing and sending succeed,
`subscribe` sends the one frame and returns `Ok(())`. -/
theorem subscribe_panics_never_errors_witness :
    client_subscribe testPrims testEnv testClient "N" =
      .ret [.send (testPrims.serRequest
        (.subscribe testClient.address.public_key (testPrims.sigToHex "N")))]
        .ok :=
  (subscribe_panics_never_errors testPrims testEnv testClient "N").1 "N"
    (by decide) (by decide)

/-- C1 counterexample: on `Challenge{nonce}` with nonce `N` and local public
key `PK`, where the abstract signer is the identity, the sent `Subscribe`
frame carries signature `N` — the signature over the nonce alone — while the
claim's formula `sign(localPublicKeyString ++ nonce)` yields `PKN`, whose
frame would differ. -/
theorem subscribe_signature_not_over_pubkey_concat :
    (subscriber_on_message testPrims testEnv testClient "C").2 =
      .done [.send "SUB:PK:N"] .ok ∧
    testPrims.sigToHex ((testPrims.sign
      (testClient.address.public_key ++ "N") testClient.secret_key).getD "") =
      "PKN" ∧
    ("SUB:PK:N" : String) ≠ "SUB:PK:PKN" := by
  refine ⟨?_, ?_, ?_⟩ <;> decide

/-- C1 (amended): on receiving `Challenge{nonce}`, the client sends a
`Subscribe` request whose address field is the local public-key string and
whose signature is `sign(nonce, localSecretKey)`: the signed bytes are the
nonce alone, not the public key concatenated with the nonce. -/
theorem subscribe_signs_nonce_only (p : Prims) (env : Env) (c : ClientState)
    (raw nonce sig : String)
    (hparse : p.parseResponse raw = some (.challenge nonce))
    (hsign : p.sign nonce c.secret_key = some sig)
    (hsend : env.sendOk = true) :
    subscriber_on_message p env c raw =
      ({ c with challenge := some nonce },
       .done [.send (p.serRequest
         (.subscribe c.address.public_key (p.sigToHex sig)))] .ok) := by
  simp [subscriber_on_message, hparse, client_subscribe, generate_signature,
    hsign, hsend]

/-- C1 witness: the amended claim evaluated at the concrete primitives. -/
theorem subscribe_signs_nonce_only_witness :
    subscriber_on_message testPrims testEnv testClient "C" =
      ({ testClient with challenge := some "N" },
       .done [.send (testPrims.serRequest
         (.subscribe testClient.address.public_key (testPrims.sigToHex "N")))]
         .ok) :=
  subscribe_signs_nonce_only testPrims testEnv testClient "C" "N" "N"
    (by decide) (by decide) (by decide)

/-- C2: for an inbound `Slate` message, `on_slate` is invoked only if the
signature verifies against `payloadString ++ challenge` under the public key
parsed from `from`; on verification failure the message is only logged, no
`on_slate` is delivered, the state is unchanged and the handler returns
`Ok(())`, leaving the connection open. -/
theorem slate_delivered_only_if_signature_verifies (p : Prims) (env : Env)
    (c : ClientState) (raw f s ch sg : String)
    (hparse : p.parseResponse raw = some (.slate f s ch sg)) :
    (∀ a sl,
      Event.onSlate a sl ∈ (subscriber_on_message p env c raw).2.events →
      verify_slate_signature p f s ch sg = true) ∧
    (verify_slate_signature p f s ch sg = false →
      subscriber_on_message p env c raw =
        (c, .done [.log "received slate with invalid signature!"] .ok)) := by
  constructor
  · intro a sl hmem
    simp only [subscriber_on_message, hparse] at hmem
    exact (handle_slate_onSlate_spec p c f s ch sg a sl hmem).1
  · intro hv
    simp [subscriber_on_message, hparse,
      handle_slate_invalid_signature p c f s ch sg hv]

/-- C2 witness: a concrete `Slate` whose signature fails verification is
logged and dropped with the state unchanged and the result `Ok(())`. -/
theorem slate_delivered_only_if_signature_verifies_witness :
    subscriber_on_message testPrims testEnv testClient "S" =
      (testClient, .done [.log "received slate with invalid signature!"] .ok) :=
  (slate_delivered_only_if_signature_verifies testPrims testEnv testClient "S"
    "bob" "payload" "xyz" "deadbeef" (by decide)).2 (by decide)

/-- C9: processing a `Slate` message reads only the message's own fields and
the client's address-independent configuration, never the stored
per-connection challenge: two states differing only in the stored challenge
produce the same result, and neither processing changes its state. -/
theorem slate_processing_independent_of_stored_challenge (p : Prims)
    (env : Env) (a : GrinboxAddress) (sk : String) (enc : Bool)
    (ch1 ch2 : Option String) (raw f s ch sg : String)
    (hparse : p.parseResponse raw = some (.slate f s ch sg)) :
    (subscriber_on_message p env ⟨a, sk, enc, ch1⟩ raw).2 =
      (subscriber_on_message p env ⟨a, sk, enc, ch2⟩ raw).2 ∧
    (subscriber_on_message p env ⟨a, sk, enc, ch1⟩ raw).1 = ⟨a, sk, enc, ch1⟩ ∧
    (subscriber_on_message p env ⟨a, sk, enc, ch2⟩ raw).1 = ⟨a, sk, enc, ch2⟩ := by
  refine ⟨?_, ?_, ?_⟩ <;> simp only [subscriber_on_message, hparse] <;> rfl

/-- C9 witness: the challenge-independence of `Slate` processing evaluated
at two concrete states differing only in the stored challenge. -/
theorem slate_processing_independent_of_stored_challenge_witness :
    (subscriber_on_message testPrims testEnv
        ⟨testAddress, "SK", false, none⟩ "S").2 =
      (subscriber_on_message testPrims testEnv
        ⟨testAddress, "SK", false, some "old"⟩ "S").2 ∧
    (subscriber_on_message testPrims testEnv
        ⟨testAddress, "SK", false, none⟩ "S").1 =
      ⟨testAddress, "SK", false, none⟩ ∧
    (subscriber_on_message testPrims testEnv
        ⟨testAddress, "SK", false, some "old"⟩ "S").1 =
      ⟨testAddress, "SK", false, some "old"⟩ :=
  slate_processing_independent_of_stored_challenge testPrims testEnv
    testAddress "SK" false none (some "old") "S" "bob" "payload" "xyz"
    "deadbeef" (by decide)

/-- C3 counterexample: an unparseable inbound message is not "logged and
dropped with the connection continuing": the subscriber's `on_message`
returns a `Protocol` ws error (not `Ok`), and the publisher's message
closure panics on its `expect`. -/
theorem malformed_message_not_dropped :
    subscriber_on_message testPrims testEnv testClient "garbage" =
      (testClient, .done [] (.err (.protocol "could not parse response!"))) ∧
    (subscriber_on_message testPrims testEnv testClient "garbage").2.isOk =
      false ∧
    publisher_on_message testPrims testEnv "payload" testSender testAddress
      "BPK" "SK" false "garbage" = .panic "could not parse response!" [] ∧
    (publisher_on_message testPrims testEnv "payload" testSender testAddress
      "BPK" "SK" false "garbage").isPanic = true := by
  refine ⟨?_, ?_, ?_, ?_⟩ <;> decide

/-- C3 (amended): an inbound message that cannot be parsed as a protocol
response makes the subscriber's `on_message` return a `Protocol` error to
the transport layer (with no events emitted), and makes the publisher's
message closure panic via `expect`; by contrast, message-level failures
after a successful parse of a `Slate` response are logged and dropped and
the handler returns `Ok(())`, leaving the connection open. -/
theorem malformed_message_errors_or_panics (p : Prims) (env : Env)
    (c : ClientState) (slate : String) (to_ from_ : GrinboxAddress)
    (pkey secret_key : String) (enc : Bool) (raw raw2 f s ch sg : String)
    (hparse : p.parseResponse raw = none)
    (hparse2 : p.parseResponse raw2 = some (.slate f s ch sg)) :
    subscriber_on_message p env c raw =
      (c, .done [] (.err (.protocol "could not parse response!"))) ∧
    publisher_on_message p env slate to_ from_ pkey secret_key enc raw =
      .panic "could not parse response!" [] ∧
    (∃ es, subscriber_on_message p env c raw2 = (c, .done es .ok)) := by
  refine ⟨?_, ?_, ?_⟩
  · simp [subscriber_on_message, hparse]
  · simp [publisher_on_message, hparse]
  · obtain ⟨es, hes⟩ := handle_slate_returns_ok p c f s ch sg
    exact ⟨es, by simp [subscriber_on_message, hparse2, hes]⟩

/-- C3 witness: the amended claim evaluated at a concrete unparseable
message and a concrete `Slate` message. -/
theorem malformed_message_errors_or_panics_witness :
    subscriber_on_message testPrims testEnv testClient "garbage" =
      (testClient, .done [] (.err (.protocol "could not parse response!"))) ∧
    publisher_on_message testPrims testEnv "payload" testSender testAddress
      "BPK" "SK" false "garbage" = .panic "could not parse response!" [] ∧
    (∃ es, subscriber_on_message testPrims testEnv testClient "S" =
      (testClient, .done es .ok)) :=
  malformed_message_errors_or_panics testPrims testEnv testClient "payload"
    testSender testAddress "BPK" "SK" false "garbage" "S" "bob" "payload"
    "xyz" "deadbeef" (by decide) (by decide)

/-- C4: the publisher resolves `wss://domain:port` with port defaulting to
13420; on a `Challenge` response it sends a `PostSlate` whose payload string
is the encrypted envelope iff encryption is configured, signed over
`payload-string ++ challenge-string` with the sender secret key, with
`from` the stripped sender address and `to` the recipient public key, then
requests a normal close; any response other than `Challenge` is ignored. -/
theorem post_slate_challenge_flow (p : Prims) (env : Env) (slate : String)
    (to_ from_ : GrinboxAddress) (pkey secret_key : String) (enc : Bool)
    (raw : String) :
    grinbox_url to_ =
      "wss://" ++ to_.domain ++ ":" ++ toString (to_.port.getD 13420) ∧
    (∀ nonce, p.parseResponse raw = some (.challenge nonce) →
      ∀ ss, ((enc = true ∧ ∃ em, p.encrypt (p.serSlate slate) pkey secret_key =
                some em ∧ ss = p.serEnc em) ∨
             (enc = false ∧ ss = p.serSlate slate)) →
      ∀ sig, p.sign (ss ++ nonce) secret_key = some sig →
      env.sendOk = true →
      publisher_on_message p env slate to_ from_ pkey secret_key enc raw =
        .done [.send (p.serRequest (.postSlate (p.stripped from_)
            to_.public_key ss (p.sigToHex sig))), .close .normal] .ok) ∧
    (∀ f s ch sg, p.parseResponse raw = some (.slate f s ch sg) →
      publisher_on_message p env slate to_ from_ pkey secret_key enc raw =
        .done [] .ok) ∧
    (∀ k d, p.parseResponse raw = some (.error k d) →
      publisher_on_message p env slate to_ from_ pkey secret_key enc raw =
        .done [] .ok) ∧
    (p.parseResponse raw = some .other →
      publisher_on_message p env slate to_ from_ pkey secret_key enc raw =
        .done [] .ok) := by
  refine ⟨rfl, ?_, ?_, ?_, ?_⟩
  · intro nonce hpr ss hss sig hsig hsend
    rcases hss with ⟨henc, em, hem, hss⟩ | ⟨henc, hss⟩
    · subst hss
      subst henc
      simp [publisher_on_message, hpr, hem, publisher_send,
        generate_signature, hsig, hsend]
    · subst hss
      subst henc
      simp [publisher_on_message, hpr, publisher_send, generate_signature,
        hsig, hsend]
  · intro f s ch sg hpr
    simp [publisher_on_message, hpr]
  · intro k d hpr
    simp [publisher_on_message, hpr]
  · intro hpr
    simp [publisher_on_message, hpr]

/-- C4 witness: the unencrypted publisher flow evaluated at concrete inputs
— the URL, the `PostSlate` sent on `Challenge` and the ignored non-challenge
response. -/
theorem post_slate_challenge_flow_witness :
    grinbox_url testSender =
      "wss://" ++ testSender.domain ++ ":" ++
        toString (testSender.port.getD 13420) ∧
    publisher_on_message testPrims testEnv "payload" testSender testAddress
      "BPK" "SK" false "C" =
      .done [.send (testPrims.serRequest (.postSlate
          (testPrims.stripped testAddress) testSender.public_key "payload"
          (testPrims.sigToHex "payloadN"))), .close .normal] .ok ∧
    publisher_on_message testPrims testEnv "payload" testSender testAddress
      "BPK" "SK" false "S" = .done [] .ok :=
  ⟨(post_slate_challenge_flow testPrims testEnv "payload" testSender
      testAddress "BPK" "SK" false "C").1,
   (post_slate_challenge_flow testPrims testEnv "payload" testSender
      testAddress "BPK" "SK" false "C").2.1 "N" (by decide) "payload"
      (Or.inr ⟨rfl, by decide⟩) "payloadN" (by decide) (by decide),
   (post_slate_challenge_flow testPrims testEnv "payload" testSender
      testAddress "BPK" "SK" false "S").2.2.1 "bob" "payload" "xyz"
      "deadbeef" (by decide)⟩

/-- C7: encryption mode is applied symmetrically.  With encryption enabled,
every frame the publisher sends carries the serialized encrypted envelope
(never the plain serialized slate field), and a slate the subscriber
delivers was decoded by parsing the encrypted envelope and decrypting with
the sender's public key and the local secret key; with encryption disabled,
the payload string is the serialized slate and is parsed directly. -/
theorem encryption_mode_applied_symmetrically (p : Prims) (env : Env)
    (slate : String) (to_ from_ : GrinboxAddress) (pkey secret_key : String)
    (c : ClientState) (raw f s ch sg : String)
    (hparse : p.parseResponse raw = some (.slate f s ch sg)) :
    (∀ raw2 fr, Event.send fr ∈
        (publisher_on_message p env slate to_ from_ pkey secret_key true
          raw2).events →
      ∃ em sig, p.encrypt (p.serSlate slate) pkey secret_key = some em ∧
        fr = p.serRequest (.postSlate (p.stripped from_) to_.public_key
          (p.serEnc em) sig)) ∧
    (∀ raw2 fr, Event.send fr ∈
        (publisher_on_message p env slate to_ from_ pkey secret_key false
          raw2).events →
      ∃ sig, fr = p.serRequest (.postSlate (p.stripped from_) to_.public_key
        (p.serSlate slate) sig)) ∧
    (∀ a sl, Event.onSlate a sl ∈
        (subscriber_on_message p env c raw).2.events →
      (c.use_encryption = true → ∃ em pk d, p.parseEnc s = some em ∧
        p.addrPublicKey a = some pk ∧ p.decrypt em pk c.secret_key = some d ∧
        p.parseSlate d = some sl) ∧
      (c.use_encryption = false → p.parseSlate s = some sl)) := by
  refine ⟨?_, ?_, ?_⟩
  · intro raw2 fr hmem
    cases hpr : p.parseResponse raw2 with
    | none => simp [publisher_on_message, hpr, HRes.events] at hmem
    | some r =>
      cases r with
      | challenge nonce =>
        cases hem : p.encrypt (p.serSlate slate) pkey secret_key with
        | none => simp [publisher_on_message, hpr, hem, HRes.events] at hmem
        | some em =>
          cases hsig : p.sign (p.serEnc em ++ nonce) secret_key with
          | none =>
            simp [publisher_on_message, hpr, hem, publisher_send,
              generate_signature, hsig, HRes.events] at hmem
          | some s0 =>
            by_cases hsend : env.sendOk = true
            · simp [publisher_on_message, hpr, hem, publisher_send,
                generate_signature, hsig, hsend, HRes.events] at hmem
              exact ⟨em, p.sigToHex s0, rfl, hmem⟩
            · simp [publisher_on_message, hpr, hem, publisher_send,
                generate_signature, hsig, hsend, HRes.events] at hmem
      | slate f2 s2 ch2 sg2 =>
        simp [publisher_on_message, hpr, HRes.events] at hmem
      | error k d => simp [publisher_on_message, hpr, HRes.events] at hmem
      | other => simp [publisher_on_message, hpr, HRes.events] at hmem
  · intro raw2 fr hmem
    cases hpr : p.parseResponse raw2 with
    | none => simp [publisher_on_message, hpr, HRes.events] at hmem
    | some r =>
      cases r with
      | challenge nonce =>
        cases hsig : p.sign (p.serSlate slate ++ nonce) secret_key with
        | none =>
          simp [publisher_on_message, hpr, publisher_send,
            generate_signature, hsig, HRes.events] at hmem
        | some s0 =>
          by_cases hsend : env.sendOk = true
          · simp [publisher_on_message, hpr, publisher_send,
              generate_signature, hsig, hsend, HRes.events] at hmem
            exact ⟨p.sigToHex s0, hmem⟩
          · simp [publisher_on_message, hpr, publisher_send,
              generate_signature, hsig, hsend, HRes.events] at hmem
      | slate f2 s2 ch2 sg2 =>
        simp [publisher_on_message, hpr, HRes.events] at hmem
      | error k d => simp [publisher_on_message, hpr, HRes.events] at hmem
      | other => simp [publisher_on_message, hpr, HRes.events] at hmem
  · intro a sl hmem
    simp only [subscriber_on_message, hparse] at hmem
    obtain ⟨hv, hpa, hchain⟩ := handle_slate_onSlate_spec p c f s ch sg a sl hmem
    constructor
    · intro henc
      rcases hchain with ⟨_, em, pk, d, h1, h2, h3, h4⟩ | ⟨hfalse, _⟩
      · exact ⟨em, pk, d, h1, h2, h3, h4⟩
      · simp [henc] at hfalse
    · intro henc
      rcases hchain with ⟨htrue, _⟩ | ⟨_, hps⟩
      · simp [henc] at htrue
      · exact hps

/-- C7 witness: with the concrete primitives, the encrypted publisher's
sent frame carries the encrypted envelope, and a slate delivered to an
encryption-enabled subscriber decodes through the envelope chain. -/
theorem encryption_mode_applied_symmetrically_witness :
    (∃ em sig,
      testPrims.encrypt (testPrims.serSlate "payload") "BPK" "SK" = some em ∧
      "POST:example.com:BPK:enc(payload,BPK,SK):enc(payload,BPK,SK)N" =
        testPrims.serRequest (.postSlate (testPrims.stripped testAddress)
          testSender.public_key (testPrims.serEnc em) sig)) ∧
    ((⟨testAddress, "SK", true, none⟩ : ClientState).use_encryption = true →
      ∃ em pk d, testPrims.parseEnc "payload" = some em ∧
        testPrims.addrPublicKey testSender = some pk ∧
        testPrims.decrypt em pk
          (⟨testAddress, "SK", true, none⟩ : ClientState).secret_key = some d ∧
        testPrims.parseSlate d = some "payload") :=
  ⟨(encryption_mode_applied_symmetrically testPrims testEnv "payload"
      testSender testAddress "BPK" "SK" testClient "G" "bob" "payload" "xyz"
      "payloadxyzBPK" (by decide)).1 "C"
      "POST:example.com:BPK:enc(payload,BPK,SK):enc(payload,BPK,SK)N"
      (by decide),
   ((encryption_mode_applied_symmetrically testPrims testEnv "payload"
      testSender testAddress "BPK" "SK" ⟨testAddress, "SK", true, none⟩ "G"
      "bob" "payload" "xyz" "payloadxyzBPK" (by decide)).2.2 testSender
      "payload" (by decide)).1⟩

/-- C8: on connection open the subscriber notifies `on_open` first and then
arms the keepalive timer; a keepalive-token timeout sends a ping and
re-arms the same timer with the same interval; a timeout carrying any other
token is rejected with an `Internal` error. -/
theorem on_open_then_keepalive_arm_and_timer_rearm (env : Env) (tok : Nat) :
    (client_on_open env).events.head? = some .onOpen ∧
    (env.timeoutOk = true →
      client_on_open env =
        .done [.onOpen, .timeout KEEPALIVE_INTERVAL_MS KEEPALIVE_TOKEN] .ok) ∧
    (env.pingOk = true → env.timeoutOk = true →
      client_on_timeout env KEEPALIVE_TOKEN =
        .done [.ping, .timeout KEEPALIVE_INTERVAL_MS KEEPALIVE_TOKEN] .ok) ∧
    (tok ≠ KEEPALIVE_TOKEN →
      client_on_timeout env tok =
        .done [] (.err (.internal "Invalid timeout token encountered!"))) := by
  refine ⟨?_, ?_, ?_, ?_⟩
  · unfold client_on_open
    by_cases h : env.timeoutOk = true <;> simp [h, HRes.events]
  · intro h
    simp [client_on_open, h]
  · intro h1 h2
    simp [client_on_timeout, h1, h2]
  · intro h
    simp [client_on_timeout, h]

/-- C8 witness: the open/keepalive behaviour evaluated in an environment
where every sender operation succeeds, with the foreign token 2. -/
theorem on_open_then_keepalive_arm_and_timer_rearm_witness :
    (client_on_open testEnv).events.head? = some .onOpen ∧
    client_on_open testEnv =
      .done [.onOpen, .timeout KEEPALIVE_INTERVAL_MS KEEPALIVE_TOKEN] .ok ∧
    client_on_timeout testEnv KEEPALIVE_TOKEN =
      .done [.ping, .timeout KEEPALIVE_INTERVAL_MS KEEPALIVE_TOKEN] .ok ∧
    client_on_timeout testEnv 2 =
      .done [] (.err (.internal "Invalid timeout token encountered!")) :=
  ⟨(on_open_then_keepalive_arm_and_timer_rearm testEnv 2).1,
   (on_open_then_keepalive_arm_and_timer_rearm testEnv 2).2.1 rfl,
   (on_open_then_keepalive_arm_and_timer_rearm testEnv 2).2.2.1 rfl rfl,
   (on_open_then_keepalive_arm_and_timer_rearm testEnv 2).2.2.2 (by decide)⟩

/-- The map of a client trace through `WAct.act` keeps no `on_close`
callback, so the worker's own epilogue is the only one. -/
theorem filter_onClose_map_act (evs : List Event)
    (hno : ∀ e ∈ evs, e.isOnClose = false) :
    (evs.map WAct.act).filter WAct.isOnCloseCb = [] := by
  induction evs with
  | nil => rfl
  | cons e es ih =>
    have h1 := hno e (List.mem_cons_self e es)
    have h2 : ∀ x ∈ es, x.isOnClose = false := fun x hx =>
      hno x (List.mem_cons_of_mem e hx)
    simp [List.filter_cons, WAct.isOnCloseCb, h1, ih h2]

/-- C5 counterexample: a concrete subscription lifetime with zero
`on_close` callbacks.  With `sender.send` failing, the `Challenge` arm
panics on `expect("could not send subscribe request!")`; the panic unwinds
through `connect` and kills the worker thread, so the whole lifetime's
action list is just the registry install: no registry clear and no
`on_close`, falsifying "invokes handler.onClose exactly once". -/
theorem panicking_lifetime_delivers_no_on_close :
    subscriber_on_message testPrims failSendEnv testClient "C" =
      ({ testClient with challenge := some "N" },
       .panic "could not send subscribe request!" []) ∧
    WorkerLifetime testPrims failSendEnv testClient 7
      (.panicked "could not send subscribe request!") [.install 7] ∧
    List.filter WAct.isOnCloseCb [.install 7] = [] ∧
    WAct.clear ∉ ([.install 7] : List WAct) := by
  refine ⟨by decide, ?_, by decide, by decide⟩
  exact WorkerLifetime.panicked testClient
    { testClient with challenge := some "N" } [] []
    "could not send subscribe request!" "C" (ClientTrace.nil testClient)
    (by decide)

/-- C5 (amended): for every subscription lifetime in which the connection
run completes — `connect` returns, no handler callback having panicked —
the worker clears the handle from the shared registry and then invokes
`handler.on_close` exactly once, as the last callback of that lifetime,
with reason `Normal` when `connect` returned cleanly and `Abnormal`
otherwise; a lifetime ended by a handler-callback panic delivers no
`on_close` and does not clear the registry. -/
theorem worker_clears_then_on_close_unless_panic (p : Prims) (env : Env)
    (c : ClientState) (h : Nat) (out : ConnectOutcome) (acts : List WAct)
    (hl : WorkerLifetime p env c h out acts) :
    (∀ ok, out = .returned ok →
      acts.filter WAct.isOnCloseCb =
        [.act (.onClose (if ok then .normal else .abnormal))] ∧
      ∃ pre, acts =
        pre ++ [.clear,
          .act (.onClose (if ok then .normal else .abnormal))]) ∧
    (∀ msg, out = .panicked msg →
      acts.filter WAct.isOnCloseCb = [] ∧ WAct.clear ∉ acts) := by
  cases hl with
  | completed c₁ evs ok ht =>
    constructor
    · intro ok2 hout
      obtain rfl : ok = ok2 := by injection hout
      have hmap := filter_onClose_map_act evs (clientTrace_no_onClose ht)
      constructor
      · simp [worker_run, List.filter_append, List.filter_cons, hmap,
          WAct.isOnCloseCb, Event.isOnClose]
      · exact ⟨WAct.install h :: evs.map WAct.act, by simp [worker_run]⟩
    · intro msg hout
      exact ConnectOutcome.noConfusion hout
  | panicked c₁ c₂ evs es msg raw ht heq =>
    constructor
    · intro ok hout
      exact ConnectOutcome.noConfusion hout
    · intro msg2 hout
      have hes : ∀ e ∈ es, e.isOnClose = false := by
        have hh := subscriber_on_message_no_onClose p env c₁ raw
        rw [heq] at hh
        exact hh
      have hno : ∀ e ∈ evs ++ es, e.isOnClose = false := by
        intro e he
        rcases List.mem_append.mp he with h1 | h1
        · exact clientTrace_no_onClose ht e h1
        · exact hes e h1
      have hmap := filter_onClose_map_act (evs ++ es) hno
      constructor
      · simp [worker_run, List.filter_append, List.filter_cons, hmap,
          WAct.isOnCloseCb]
        exact ⟨fun a ha => clientTrace_no_onClose ht a ha,
          fun a ha => hes a ha⟩
      · simp [worker_run]

/-- C5 witness: the amended claim evaluated on a completed lifetime (the
empty client trace with `connect` returning `Ok`): one `Normal` `on_close`,
preceded by the registry clear, at the very end. -/
theorem worker_clears_then_on_close_unless_panic_witness :
    (worker_run 7 [] (.returned true)).filter WAct.isOnCloseCb =
      [.act (.onClose .normal)] ∧
    ∃ pre, worker_run 7 [] (.returned true) =
      pre ++ [.clear, .act (.onClose .normal)] :=
  (worker_clears_then_on_close_unless_panic testPrims testEnv testClient 7
    (.returned true) (worker_run 7 [] (.returned true))
    (WorkerLifetime.completed testClient [] true
      (ClientTrace.nil testClient))).1 true rfl

end Grinbox
